import Mathlib

/-!
Verification of the vendor/Shopify reconciliation core of the
`shopify-tools` repository against its natural-language specification.

The Python source is shallowly embedded: each relevant Python function is
translated into an executable Lean definition over explicit data
(strings as `String`, Python dicts as insertion-ordered association
lists with last-binding-wins lookup, fallible HTTP calls as explicit
outcome values).  Python's `str.strip()` is modelled by `pyStrip`,
covering the ASCII whitespace characters; the inputs exercised by the
claims contain no other whitespace.
-/

set_option autoImplicit false

namespace ShopifyTools

/-- The ASCII whitespace characters removed by Python's `str.strip()`. -/
def pyIsSpace (c : Char) : Bool :=
  c = ' ' || c = '\t' || c = '\n' || c = '\r' || c = '\x0b' || c = '\x0c'

/-- Strip leading and trailing whitespace from a list of characters. -/
def pyStripChars (cs : List Char) : List Char :=
  ((cs.dropWhile pyIsSpace).reverse.dropWhile pyIsSpace).reverse

/-- Model of Python `str.strip()` (ASCII whitespace). -/
def pyStrip (s : String) : String :=
  ⟨pyStripChars s.data⟩

/-- A character counts as an `X` for the case-insensitive regex
`^(X{2,})(S|L)$` used by `_normalize_size`. -/
def isXChar (c : Char) : Bool := c = 'X' || c = 'x'

/-- Embedding of `_normalize_size` (src/web_tools/shopify.py):
`re.match(r'^(X{2,})(S|L)$', size, re.IGNORECASE)`; on a match the X-run
is collapsed to its length and the final letter upper-cased, otherwise
the string is returned unchanged.  Python's `$` also matches just before
a single trailing newline, hence the `dropLast` step. -/
def normalizeSize (size : String) : String :=
  let t : List Char :=
    if size.data.getLast? = some '\n' then size.data.dropLast else size.data
  let xs := t.takeWhile isXChar
  let rest := t.drop xs.length
  if xs.length ≥ 2 ∧ (rest = ['S'] ∨ rest = ['s'] ∨ rest = ['L'] ∨ rest = ['l']) then
    toString xs.length ++ "X" ++ (if rest = ['S'] ∨ rest = ['s'] then "S" else "L")
  else size

/-- The size pipeline applied to the raw `Size` CSV field in
`parse_vendor_csv`: strip, drop everything from the first `/` on
(stripping again), then `_normalize_size`. -/
def sizeOfRawField (s0 : String) : String :=
  let s := pyStrip s0
  let s := if s.data.contains '/' then pyStrip ⟨s.data.takeWhile (· ≠ '/')⟩ else s
  normalizeSize s

/-- Literal reading of the spec's size-normalization sentence, for
comparison with the code: keep exactly the text before the first `/`
(no stripping), then collapse a run of 2+ literal `X` characters
followed by `S` or `L`; any other string is left unchanged. -/
def specSizeLiteral (s : String) : String :=
  let t : String := if s.data.contains '/' then ⟨s.data.takeWhile (· ≠ '/')⟩ else s
  let xs := t.data.takeWhile (· = 'X')
  let rest := t.data.drop xs.length
  if xs.length ≥ 2 ∧ (rest = ['S'] ∨ rest = ['L']) then
    toString xs.length ++ "X" ++ (⟨rest⟩ : String)
  else t

/-- Whether a character list is of the case-insensitive collapsible form
`X{2,}(S|L)` (after the trailing-newline adjustment is irrelevant). -/
def xRunFormCI (cs : List Char) : Bool :=
  let xs := cs.takeWhile isXChar
  let rest := cs.drop xs.length
  decide (xs.length ≥ 2 ∧ (rest = ['S'] ∨ rest = ['s'] ∨ rest = ['L'] ∨ rest = ['l']))

/-! ## Data model: vendor rows and the Shopify catalog

A `VendorItem` is one parsed row of a vendor CSV, with the string fields
emitted by `parse_vendor_csv`.  A Python dict produced by the parser
always carries all of these keys, so a structure is a faithful model;
a *missing* `product_code` corresponds to the empty string. -/

structure VendorItem where
  sku : String
  ean : String
  hs_code : String
  size : String
  name : String
  product_code : String
  base_name : String
  color : String
  size_eu : String
  size_usa : String
  price : String
  msrp : String
  currency : String
  weight : String
  weight_unit : String
  country_of_origin : String
  deriving DecidableEq, Repr

/-- The fields of a Shopify variant consulted by `compare_vendor_products`.
The `sku` field is the key of the product's `variants` dict. -/
structure ShopifyVariant where
  sku : String
  barcode : String
  deriving DecidableEq, Repr

/-- One product of the fetched Shopify catalog (`fetch_shopify_products_by_vendors`
result value).  The catalog dict's values are modelled as a list in
insertion order. -/
structure ShopifyProduct where
  id : String
  title : String
  variants : List ShopifyVariant
  deriving DecidableEq, Repr

/-- The `product_ref` dict `{"id": ..., "title": ...}` built per product. -/
structure ProductRef where
  id : String
  title : String
  deriving DecidableEq, Repr

/-- An entry of the `new_variants` result list: the copied vendor row
plus the two added keys `shopify_product_id` / `shopify_product_title`. -/
structure NewVariantEntry where
  item : VendorItem
  shopify_product_id : String
  shopify_product_title : String
  deriving DecidableEq, Repr

structure CompareResult where
  new_products : List VendorItem
  new_variants : List NewVariantEntry
  deriving DecidableEq, Repr

/-- Lookup in a Python dict modelled as an insertion-ordered association
list: a later binding of the same key overwrites an earlier one, hence
the *last* matching pair wins. -/
def dlookup {α : Type} (m : List (String × α)) (k : String) : Option α :=
  m.foldl (fun acc p => if p.1 = k then some p.2 else acc) none

/-- The `sku_to_product` dict of `compare_vendor_products`: every
non-empty variant SKU of every catalog product, mapped to the product's
ref.  Its key set is exactly the `known_skus` set, which the code
populates under the same guard. -/
def skuToProduct (ps : List ShopifyProduct) : List (String × ProductRef) :=
  ps.flatMap fun p => p.variants.filterMap fun v =>
    if v.sku ≠ "" then some (v.sku, ⟨p.id, p.title⟩) else none

/-- The `barcode_to_product` dict: every non-empty variant barcode mapped
to the product's ref; its key set is the `known_barcodes` set. -/
def barcodeToProduct (ps : List ShopifyProduct) : List (String × ProductRef) :=
  ps.flatMap fun p => p.variants.filterMap fun v =>
    if v.barcode ≠ "" then some (v.barcode, ⟨p.id, p.title⟩) else none

/-- Membership in the `known_skus` set. -/
def knownSku (ps : List ShopifyProduct) (s : String) : Bool :=
  (dlookup (skuToProduct ps) s).isSome

/-- Membership in the `known_barcodes` set. -/
def knownBarcode (ps : List ShopifyProduct) (s : String) : Bool :=
  (dlookup (barcodeToProduct ps) s).isSome

/-- First-occurrence deduplication, accumulating the keys already seen:
the iteration order of a Python dict built with `setdefault`. -/
def dedupFirstAux : List String → List String → List String
  | [], _ => []
  | c :: rest, seen =>
    if c ∈ seen then dedupFirstAux rest seen
    else c :: dedupFirstAux rest (c :: seen)

/-- The keys of `vendor_by_code` in iteration order: the distinct
non-empty stripped product codes, in order of first appearance. -/
def vendorCodes (v : List VendorItem) : List String :=
  dedupFirstAux (v.filterMap fun it =>
    let c := pyStrip it.product_code
    if c = "" then none else some c) []

/-- The group `vendor_by_code[c]`: the vendor rows whose stripped
product code is `c`, in their original order. -/
def vendorGroup (v : List VendorItem) (c : String) : List VendorItem :=
  v.filter fun it => pyStrip it.product_code = c

/-- One iteration of the group's match loop: probe the row's SKU against
`sku_to_product` (when non-empty), then its stripped EAN against
`barcode_to_product` (when non-empty). -/
def rowMatch (ps : List ShopifyProduct) (it : VendorItem) : Option ProductRef :=
  match (if it.sku ≠ "" then dlookup (skuToProduct ps) it.sku else none) with
  | some r => some r
  | none =>
    let ean := pyStrip it.ean
    if ean ≠ "" then dlookup (barcodeToProduct ps) ean else none

/-- The matched Shopify product of a group: the first hit of the match
loop (`break` on the first row whose SKU or EAN is known). -/
def groupMatch (ps : List ShopifyProduct) (items : List VendorItem) : Option ProductRef :=
  items.findSome? (rowMatch ps)

/-- `sku_exists`: truthiness of `sku and sku in known_skus`. -/
def skuExists (ps : List ShopifyProduct) (it : VendorItem) : Bool :=
  it.sku ≠ "" && knownSku ps it.sku

/-- `ean_exists`: truthiness of `ean and ean in known_barcodes` for the
stripped EAN. -/
def eanExists (ps : List ShopifyProduct) (it : VendorItem) : Bool :=
  pyStrip it.ean ≠ "" && knownBarcode ps (pyStrip it.ean)

/-- Embedding of `compare_vendor_products` (src/web_tools/shopify.py).
Rows are grouped by stripped product code (rows with an empty code are
dropped); a group whose match loop finds nothing contributes all of its
rows to `new_products`; a matched group contributes to `new_variants`
exactly the rows whose SKU and EAN are both absent, each tagged with the
matched product's id and title. -/
def compare_vendor_products (vendor : List VendorItem) (ps : List ShopifyProduct) :
    CompareResult :=
  let codes := vendorCodes vendor
  { new_products := codes.flatMap fun c =>
      match groupMatch ps (vendorGroup vendor c) with
      | none => vendorGroup vendor c
      | some _ => []
  , new_variants := codes.flatMap fun c =>
      match groupMatch ps (vendorGroup vendor c) with
      | none => []
      | some ref => (vendorGroup vendor c).filterMap fun it =>
          if skuExists ps it = false ∧ eanExists ps it = false then
            some ⟨it, ref.id, ref.title⟩
          else none }

/-- A sample vendor row carrying only the fields that drive
classification; all other fields are empty strings. -/
def mkItem (sku ean code : String) : VendorItem :=
  ⟨sku, ean, "", "", "", code, "", "", "", "", "", "", "", "", "", ""⟩

/-! ## Charm pricing: `_eur_to_dkk_retail`

The Python function computes on floats; it is embedded over exact
rationals represented as an explicit numerator/denominator pair.  On the
spec's example inputs the double-precision products round to exactly the
decimal values used here, so the embedding agrees with the float code on
every input the claim mentions. -/

/-- Integer ceiling division `⌈a / b⌉` for positive `b`, via floor
division of the negation (the model of Python's `math.ceil` on an exact
rational `a / b`). -/
def ceilDiv (a b : ℤ) : ℤ := -((-a) / b)

/-- Embedding of `_eur_to_dkk_retail` (src/web_tools/shopify.py): the
EUR price `num / den` (with `den > 0`) is multiplied by the fixed rate
7.5, giving the DKK amount `a / b` with `a = num * 15` and
`b = den * 2`; the amount is rounded up to the nearest 10 when at most
100, nearest 50 when at most 800, else nearest 100; then 1 is
subtracted and the integer is rendered with two decimals (`%.2f` of an
int appends `.00`). -/
def eurToDkkRetail (num : ℤ) (den : ℕ) : String :=
  let a := num * 15
  let b := (den : ℤ) * 2
  let rounded : ℤ :=
    if a ≤ 100 * b then ceilDiv a (10 * b) * 10
    else if a ≤ 800 * b then ceilDiv a (50 * b) * 50
    else ceilDiv a (100 * b) * 100
  toString (rounded - 1) ++ ".00"

/-- `r` is the least multiple of `g` that is at least the rational
`a / b` (for `b > 0`): the meaning of "round `a / b` up to the nearest
`g`". -/
def IsLeastMultipleGE (g a b r : ℤ) : Prop :=
  g ∣ r ∧ a ≤ r * b ∧ ∀ m : ℤ, g ∣ m → a ≤ m * b → r ≤ m

/-! ## Shipmondo items: paginated fetch and regex bin rewriting -/

/-- Outcome of one external HTTP/GraphQL call: a value, or a raised
exception carrying its message. -/
inductive CallResult (α : Type) where
  | ok : α → CallResult α
  | exc : String → CallResult α
  deriving DecidableEq, Repr

/-- One raw item of a Shipmondo API page, with the fields the fetch loop
reads. -/
structure RawItem where
  id : ℕ
  bin : String
  name : String
  sku : String
  deriving DecidableEq, Repr

/-- The per-SKU record stored in the `all_items` dict by
`fetch_all_shipmondo_items`. -/
structure ShipmondoItem where
  id : ℕ
  bin : String
  name : String
  sku : String
  deriving DecidableEq, Repr

/-- The body of the item loop of `fetch_all_shipmondo_items`: items with
a falsy or whitespace-only SKU are skipped; the rest are stored under
their stripped SKU (dict assignment: a later binding wins under
`dlookup`). -/
def storePageItems (acc : List (String × ShipmondoItem))
    (items : List RawItem) : List (String × ShipmondoItem) :=
  items.foldl (fun acc it =>
    if it.sku ≠ "" ∧ pyStrip it.sku ≠ "" then
      acc ++ [(pyStrip it.sku, ⟨it.id, it.bin, it.name, pyStrip it.sku⟩)]
    else acc) acc

/-- The `while True` pagination loop of `fetch_all_shipmondo_items`
(src/web_tools/shipmondo.py), run against the sequence of page responses
the server would give to requests for pages `page, page+1, ...`: an
empty page ends the loop; a transport error re-raises when it happens on
page 1, and otherwise breaks the loop, returning the items collected so
far. -/
def shipmondoFetchGo : List (CallResult (List RawItem)) → ℕ →
    List (String × ShipmondoItem) → CallResult (List (String × ShipmondoItem))
  | [], _, acc => .ok acc
  | r :: rest, page, acc =>
    match r with
    | .exc e => if page = 1 then .exc e else .ok acc
    | .ok items =>
      if items = [] then .ok acc
      else shipmondoFetchGo rest (page + 1) (storePageItems acc items)

/-- Embedding of `fetch_all_shipmondo_items`, starting at page 1 with an
empty dict. -/
def fetch_all_shipmondo_items (pages : List (CallResult (List RawItem))) :
    CallResult (List (String × ShipmondoItem)) :=
  shipmondoFetchGo pages 1 []

/-- The product-pagination loop of `fetch_shopify_products_by_vendors`
(src/web_tools/shopify.py) for one vendor: each response carries the
parsed products of the page (with their variant pagination already
folded in, itself part of the same unguarded call sequence) and the
`hasNextPage` flag; no call is wrapped in a `try`, so an exception on
any page propagates. -/
def shopifyFetchGo : List (CallResult (List ShopifyProduct × Bool)) →
    List ShopifyProduct → CallResult (List ShopifyProduct)
  | [], acc => .ok acc
  | r :: rest, acc =>
    match r with
    | .exc e => .exc e
    | .ok (prods, hasNext) =>
      if hasNext then shopifyFetchGo rest (acc ++ prods) else .ok (acc ++ prods)

/-- Embedding of `fetch_shopify_products_by_vendors` for one vendor,
starting from an empty accumulator. -/
def fetch_shopify_products_by_vendors
    (pages : List (CallResult (List ShopifyProduct × Bool))) :
    CallResult (List ShopifyProduct) :=
  shopifyFetchGo pages []

/-- One entry of the `matching_items` list returned by
`batch_update_bins_with_regex`. -/
structure BinMatchEntry where
  sku : String
  item_id : ℕ
  current_bin : String
  new_bin : String
  name : String
  deriving DecidableEq, Repr

/-- Embedding of `batch_update_bins_with_regex`
(src/web_tools/shipmondo.py) for a successfully compiled pattern,
abstracted as its `re.search` test and its `re.sub` substitution: items
whose bin is empty or does not match are excluded; a matched item is
emitted with the substituted bin.  The second component is the returned
`count`. -/
def batch_update_bins_with_regex (items : List (String × ShipmondoItem))
    (search : String → Bool) (sub : String → String) :
    List BinMatchEntry × ℕ :=
  let matching := items.filterMap fun p =>
    if p.2.bin ≠ "" ∧ search p.2.bin = true then
      some ⟨p.1, p.2.id, p.2.bin, sub p.2.bin, p.2.name⟩
    else none
  (matching, matching.length)

/-- `re.compile("^A1").search(s)`: the anchored pattern matches iff the
string starts with `A1`. -/
def searchA1 (s : String) : Bool :=
  match s.data with
  | 'A' :: '1' :: _ => true
  | _ => false

/-- `re.compile("^A1").sub("C3", s)`: the anchored pattern can only
match at the start, so at most the leading `A1` is replaced. -/
def subA1C3 (s : String) : String :=
  match s.data with
  | 'A' :: '1' :: rest => ⟨'C' :: '3' :: rest⟩
  | _ => s

/-! ## Exception behaviour of `add_variants_to_shopify_product`

The function's external calls are abstracted as outcome values and its
control flow around them is embedded.  Four booleans describe the shape
of the invocation: whether the option-value pre-creation loop performs a
mutation, whether there are seed variants to update, whether there are
new variants to bulk-create, and whether color image URLs were given. -/

/-- A variant as reported in the `created` result list (`id`, `sku`,
`title`). -/
structure VariantRef where
  id : String
  sku : String
  title : String
  deriving DecidableEq, Repr

/-- The dict returned by `add_variants_to_shopify_product`. -/
structure AddVariantsResult where
  created : List VariantRef
  errors : List String
  deriving DecidableEq, Repr

/-- Outcomes of the external calls of one invocation: the
`productOptionUpdate` mutation of the option-value pre-creation loop
(collapsed to its first failing iteration), the seed-variant
`productVariantsBulkUpdate` (variants and stringified user errors on
success), the `productVariantsBulkCreate`, and the error lists returned
by the image attach/reuse helpers (which catch their own exceptions and
return error strings). -/
structure AddVariantsEnv where
  optionValueCreate : CallResult Unit
  seedUpdate : CallResult (List VariantRef × List String)
  bulkCreate : CallResult (List VariantRef × List String)
  attachImageErrors : List String
  reuseImageErrors : List String
  deriving DecidableEq, Repr

/-- The seed-variant update phase: on success its `productVariants` go
into `all_created` and its user errors into `all_errors`; on an
exception the error message is recorded and processing continues. -/
def seedPhase (hasUpdates : Bool)
    (r : CallResult (List VariantRef × List String)) :
    List VariantRef × List String :=
  if hasUpdates then
    match r with
    | .ok (uvs, uerrs) => (uvs, uerrs)
    | .exc m => ([], ["Failed to update seed variant(s): " ++ m])
  else ([], [])

/-- The remainder of `add_variants_to_shopify_product` after the
option-value pre-creation loop: seed update, then either the
short-circuit return when nothing is left to create (with image handling
for the updated variants) or the bulk create, whose exception handler
returns the accumulated `all_created`/`all_errors` with the exception's
message appended. -/
def addVariantsAfterOptions (hasUpdates hasCreates hasColorImages : Bool)
    (env : AddVariantsEnv) : AddVariantsResult :=
  let seed := seedPhase hasUpdates env.seedUpdate
  if hasCreates = false then
    let errs1 := seed.2 ++
      (if hasColorImages = true ∧ seed.1 ≠ [] then env.attachImageErrors else [])
    let errs2 := errs1 ++ (if seed.1 ≠ [] then env.reuseImageErrors else [])
    { created := seed.1, errors := errs2 }
  else
    match env.bulkCreate with
    | .exc m => { created := seed.1, errors := seed.2 ++ [m] }
    | .ok (cvs, uerrs) =>
      let created := seed.1 ++ cvs
      let errs1 := seed.2 ++ uerrs
      let errs2 := errs1 ++
        (if hasColorImages = true ∧ created ≠ [] then env.attachImageErrors else [])
      let errs3 := errs2 ++ (if created ≠ [] then env.reuseImageErrors else [])
      { created := created, errors := errs3 }

/-- Embedding of `add_variants_to_shopify_product`
(src/web_tools/shopify.py): an exception in the option-value
pre-creation loop returns immediately with no created variants and a
single error naming the option `optName`; otherwise the seed update and
bulk create proceed as in `addVariantsAfterOptions`. -/
def add_variants_to_shopify_product
    (doOptionCreate hasUpdates hasCreates hasColorImages : Bool)
    (optName : String) (env : AddVariantsEnv) : AddVariantsResult :=
  match doOptionCreate, env.optionValueCreate with
  | true, .exc m =>
    { created := []
    , errors := ["Failed to create option values for " ++ optName ++ ": " ++ m] }
  | _, _ => addVariantsAfterOptions hasUpdates hasCreates hasColorImages env

/-! ## The vendor CSV parser

`csv.DictReader(io.StringIO(content), delimiter=";")` is modelled for
inputs without quote characters or carriage returns (none of the claims
exercise the csv module's quoting).  A row longer than the header stores
its overflow under the `None` restkey, which the code's strip
comprehension would fail on; the model drops such overflow fields, a
corner no claim touches. -/

/-- Python's `str.split(sep)` for a one-character separator (also the
line structure seen by the csv reader, for `sep = '\n'`, on inputs
without `'\r'`). -/
def splitOnChar (sep : Char) : List Char → List (List Char)
  | [] => [[]]
  | c :: rest =>
    let r := splitOnChar sep rest
    if c = sep then [] :: r
    else
      match r with
      | [] => [[c]]
      | g :: gs => (c :: g) :: gs

/-- The lines the csv reader iterates: a trailing newline does not open
a final empty line, and an empty input has no lines. -/
def csvLines (cs : List Char) : List (List Char) :=
  let ls := splitOnChar '\n' cs
  match ls.getLast? with
  | some [] => ls.dropLast
  | _ => ls

/-- `dict(zip(fieldnames, row))` with `restval=None` rendered as `""`:
missing trailing values become empty strings, overflow values are
dropped. -/
def zipPad : List (List Char) → List (List Char) → List (String × String)
  | [], _ => []
  | k :: ks, [] => (⟨k⟩, "") :: zipPad ks []
  | k :: ks, v :: vs => (⟨k⟩, ⟨v⟩) :: zipPad ks vs

/-- `row.get(key, "")` after the strip comprehension
`{(k or "").strip(): (v or "").strip() for k, v in row.items()}`;
`dlookup`'s last-binding-wins matches dict overwrite on duplicate
stripped keys. -/
def rowGet (hdr rowf : List (List Char)) (key : String) : String :=
  match dlookup ((zipPad hdr rowf).map fun p => (pyStrip p.1, pyStrip p.2)) key with
  | some v => v
  | none => ""

/-- `"-".join(parts)`. -/
def joinDash : List (List Char) → List Char
  | [] => []
  | [g] => g
  | g :: gs => g ++ '-' :: joinDash gs

/-- Locate the *last* occurrence of `" - "` and split around it
(`full_name.rsplit(" - ", 1)`); `none` when the separator does not
occur. -/
def lastDashSplit : List Char → Option (List Char × List Char)
  | [] => none
  | c :: rest =>
    match lastDashSplit rest with
    | some (l, r) => some (c :: l, r)
    | none =>
      match c, rest with
      | ' ', '-' :: ' ' :: tail => some ([], tail)
      | _, _ => none

/-- The base-name/color split of the `Name` field: split once from the
right on `" - "`, else the color is empty. -/
def splitNameColor (s : String) : String × String :=
  match lastDashSplit s.data with
  | some (b, c) => (⟨b⟩, ⟨c⟩)
  | none => (s, "")

/-- One iteration of the row loop of `parse_vendor_csv`: rows with an
empty (stripped) SKU are skipped; the remaining fields are assembled
into the normalised dict. -/
def parseRow (hdr rowf : List (List Char)) : Option VendorItem :=
  let sku := rowGet hdr rowf "SKU"
  if sku = "" then none
  else
    let fullName := rowGet hdr rowf "Name"
    let skuParts := splitOnChar '-' sku.data
    let productCode : String :=
      if skuParts.length ≥ 3 then ⟨joinDash (skuParts.take 3)⟩ else sku
    let bc := splitNameColor fullName
    let rawSize := pyStrip (rowGet hdr rowf "Size")
    let rawSize :=
      if rawSize.data.contains '/' then pyStrip ⟨rawSize.data.takeWhile (· ≠ '/')⟩
      else rawSize
    let discountPrice := rowGet hdr rowf "DiscountPrice"
    let discountCurrency := rowGet hdr rowf "DiscountCurrency"
    some
      { sku := sku
      , ean := rowGet hdr rowf "EAN13"
      , hs_code := rowGet hdr rowf "CN"
      , size := normalizeSize rawSize
      , name := fullName
      , product_code := productCode
      , base_name := bc.1
      , color := bc.2
      , size_eu := rowGet hdr rowf "ProductSizeEU"
      , size_usa := rowGet hdr rowf "ProductSizeUSA"
      , price := if discountPrice ≠ "" then discountPrice
                 else rowGet hdr rowf "ProductRegularPrice"
      , msrp := rowGet hdr rowf "ProductMSRPPrice"
      , currency := if discountCurrency ≠ "" then discountCurrency
                    else rowGet hdr rowf "ProductRegularCurrency"
      , weight := rowGet hdr rowf "ProductWeight"
      , weight_unit := rowGet hdr rowf "ProductWeightUnit"
      , country_of_origin := rowGet hdr rowf "Country" }

/-- Embedding of `parse_vendor_csv` (src/web_tools/shopify.py): the
first line is the semicolon-delimited header, every following non-empty
line is one row. -/
def parse_vendor_csv (content : String) : List VendorItem :=
  match csvLines content.data with
  | [] => []
  | hdrLine :: rowLines =>
    let hdr := splitOnChar ';' hdrLine
    (rowLines.filter (· ≠ [])).filterMap fun line =>
      parseRow hdr (splitOnChar ';' line)

/-- The `utf-8-sig` decode applied by the upload route before parsing
(`csv_file.read().decode("utf-8-sig")`, src/web_tools/app.py): one
leading U+FEFF is removed when present. -/
def stripBom (s : String) : String :=
  match s.data with
  | '\uFEFF' :: rest => ⟨rest⟩
  | _ => s

theorem pyStrip_of_no_space {s : String} (h : ∀ c ∈ s.data, pyIsSpace c = false) :
    pyStrip s = s := by
  cases s with
  | mk data =>
    simp only [pyStrip, pyStripChars]
    have h1 : data.dropWhile pyIsSpace = data := by
      cases data with
      | nil => rfl
      | cons a l =>
        rw [List.dropWhile_cons]
        simp [h a (by simp)]
    rw [h1]
    have h2 : data.reverse.dropWhile pyIsSpace = data.reverse := by
      cases hr : data.reverse with
      | nil => rfl
      | cons a l =>
        rw [List.dropWhile_cons]
        have ha : a ∈ data := by
          rw [← List.mem_reverse, hr]; simp
        simp [h a ha]
    rw [h2, List.reverse_reverse]

theorem mem_dedupFirstAux (x : String) (l : List String) : ∀ seen : List String,
    x ∈ dedupFirstAux l seen ↔ x ∈ l ∧ x ∉ seen := by
  induction l with
  | nil => intro seen; simp [dedupFirstAux]
  | cons c rest ih =>
    intro seen
    simp only [dedupFirstAux]
    by_cases hc : c ∈ seen
    · rw [if_pos hc, ih seen]
      constructor
      · rintro ⟨h1, h2⟩
        exact ⟨List.mem_cons_of_mem _ h1, h2⟩
      · rintro ⟨h1, h2⟩
        rcases List.mem_cons.1 h1 with h | h
        · exact absurd (h ▸ hc) h2
        · exact ⟨h, h2⟩
    · rw [if_neg hc]
      by_cases hx : x = c
      · subst hx
        simp [hc]
      · simp only [List.mem_cons, hx, false_or]
        rw [ih (c :: seen)]
        simp [List.mem_cons, hx]

theorem mem_vendorCodes {v : List VendorItem} {c : String} :
    c ∈ vendorCodes v ↔ c ≠ "" ∧ ∃ it ∈ v, pyStrip it.product_code = c := by
  rw [vendorCodes, mem_dedupFirstAux]
  simp only [List.not_mem_nil, not_false_iff, and_true, List.mem_filterMap]
  constructor
  · rintro ⟨it, hm, hf⟩
    by_cases h : pyStrip it.product_code = ""
    · simp [h] at hf
    · rw [if_neg h] at hf
      cases hf
      exact ⟨h, it, hm, rfl⟩
  · rintro ⟨hne, it, hm, hs⟩
    refine ⟨it, hm, ?_⟩
    rw [hs, if_neg hne]

theorem mem_vendorGroup {v : List VendorItem} {c : String} {it : VendorItem} :
    it ∈ vendorGroup v c ↔ it ∈ v ∧ pyStrip it.product_code = c := by
  simp [vendorGroup, List.mem_filter]

theorem mem_new_products {v : List VendorItem} {ps : List ShopifyProduct}
    {it : VendorItem} :
    it ∈ (compare_vendor_products v ps).new_products ↔
      it ∈ v ∧ pyStrip it.product_code ≠ "" ∧
        groupMatch ps (vendorGroup v (pyStrip it.product_code)) = none := by
  simp only [compare_vendor_products, List.mem_flatMap]
  constructor
  · rintro ⟨c, hc, hmem⟩
    rcases h : groupMatch ps (vendorGroup v c) with _ | ref
    · rw [h] at hmem
      rcases mem_vendorGroup.1 hmem with ⟨hv, hcode⟩
      subst hcode
      exact ⟨hv, (mem_vendorCodes.1 hc).1, h⟩
    · rw [h] at hmem
      exact absurd hmem (List.not_mem_nil it)
  · rintro ⟨hv, hne, hnone⟩
    refine ⟨pyStrip it.product_code, mem_vendorCodes.2 ⟨hne, it, hv, rfl⟩, ?_⟩
    rw [hnone]
    exact mem_vendorGroup.2 ⟨hv, rfl⟩

theorem mem_new_variants {v : List VendorItem} {ps : List ShopifyProduct}
    {e : NewVariantEntry} :
    e ∈ (compare_vendor_products v ps).new_variants ↔
      e.item ∈ v ∧ pyStrip e.item.product_code ≠ "" ∧
        ∃ ref, groupMatch ps (vendorGroup v (pyStrip e.item.product_code)) = some ref ∧
          skuExists ps e.item = false ∧ eanExists ps e.item = false ∧
          e.shopify_product_id = ref.id ∧ e.shopify_product_title = ref.title := by
  simp only [compare_vendor_products, List.mem_flatMap]
  constructor
  · rintro ⟨c, hc, hmem⟩
    rcases h : groupMatch ps (vendorGroup v c) with _ | ref
    · rw [h] at hmem
      exact absurd hmem (List.not_mem_nil e)
    · rw [h] at hmem
      rcases List.mem_filterMap.1 hmem with ⟨it, hit, hf⟩
      rcases mem_vendorGroup.1 hit with ⟨hv, hcode⟩
      by_cases hcond : skuExists ps it = false ∧ eanExists ps it = false
      · rw [if_pos hcond] at hf
        cases hf
        subst hcode
        exact ⟨hv, (mem_vendorCodes.1 hc).1, ref, h, hcond.1, hcond.2, rfl, rfl⟩
      · rw [if_neg hcond] at hf
        cases hf
  · rintro ⟨hv, hne, ref, hm, hsku, hean, hid, htitle⟩
    refine ⟨pyStrip e.item.product_code, mem_vendorCodes.2 ⟨hne, e.item, hv, rfl⟩, ?_⟩
    rw [hm]
    refine List.mem_filterMap.2 ⟨e.item, mem_vendorGroup.2 ⟨hv, rfl⟩, ?_⟩
    rw [if_pos ⟨hsku, hean⟩]
    cases e
    simp only at hid htitle
    rw [hid, htitle]

theorem rowMatch_eq_none {ps : List ShopifyProduct} {it : VendorItem} :
    rowMatch ps it = none ↔ skuExists ps it = false ∧ eanExists ps it = false := by
  rw [rowMatch, skuExists, eanExists, knownSku, knownBarcode]
  by_cases h1 : it.sku = ""
  · by_cases h2 : pyStrip it.ean = "" <;>
      cases hb : dlookup (barcodeToProduct ps) (pyStrip it.ean) <;> simp [h1, h2, hb]
  · cases hs : dlookup (skuToProduct ps) it.sku with
    | some r => simp [hs, h1]
    | none =>
      by_cases h2 : pyStrip it.ean = "" <;>
        cases hb : dlookup (barcodeToProduct ps) (pyStrip it.ean) <;>
          simp [hs, h1, h2, hb]

theorem skuExists_eq_false_iff {ps : List ShopifyProduct} {it : VendorItem} :
    skuExists ps it = false ↔ it.sku = "" ∨ knownSku ps it.sku = false := by
  rw [skuExists]
  by_cases h : it.sku = "" <;> cases hk : knownSku ps it.sku <;> simp [h, hk]

theorem eanExists_eq_false_iff {ps : List ShopifyProduct} {it : VendorItem} :
    eanExists ps it = false ↔
      pyStrip it.ean = "" ∨ knownBarcode ps (pyStrip it.ean) = false := by
  rw [eanExists]
  by_cases h : pyStrip it.ean = "" <;>
    cases hk : knownBarcode ps (pyStrip it.ean) <;> simp [h, hk]

/-- Claim C1: a vendor row whose SKU is absent from the known-SKU set but
whose non-empty stripped EAN is present in the known-barcode set never
appears in the `new_products` list returned by `compare_vendor_products`:
its own EAN hit (or an earlier sibling's hit) places its whole group in
the matched branch. -/
theorem no_new_product_when_ean_known
    (vendor : List VendorItem) (ps : List ShopifyProduct) (it : VendorItem)
    (hmem : it ∈ vendor)
    (hskuAbsent : knownSku ps it.sku = false)
    (heanNonempty : pyStrip it.ean ≠ "")
    (heanKnown : knownBarcode ps (pyStrip it.ean) = true) :
    it ∉ (compare_vendor_products vendor ps).new_products := by
  intro hnp
  rcases mem_new_products.1 hnp with ⟨hv, hne, hnone⟩
  rw [groupMatch, List.findSome?_eq_none_iff] at hnone
  have hrow := hnone it (mem_vendorGroup.2 ⟨hv, rfl⟩)
  rcases rowMatch_eq_none.1 hrow with ⟨-, hean⟩
  rcases eanExists_eq_false_iff.1 hean with h | h
  · exact heanNonempty h
  · rw [heanKnown] at h
    cases h

/-- Witness for C1 on a concrete catalog: the row's SKU `ALP-01-B` is
unknown but its EAN is the barcode of an existing variant. -/
theorem no_new_product_when_ean_known_witness :
    (mkItem "ALP-01-B" "5701234567890" "ALP-01") ∉
      (compare_vendor_products [mkItem "ALP-01-B" "5701234567890" "ALP-01"]
        [⟨"gid://shopify/Product/1", "Alpha Tee", [⟨"ALP-01-A", "5701234567890"⟩]⟩]).new_products :=
  no_new_product_when_ean_known _ _ _ (by decide) (by decide) (by decide) (by decide)

/-- Claim C2: in a group whose match loop found a Shopify product, a row
is emitted into `new_variants` iff its SKU is absent from the known-SKU
set and its EAN absent from the known-barcode set (an empty SKU or EAN
counting as absent), and every emitted entry carries the matched
product's id and title. -/
theorem new_variant_iff_sku_and_ean_absent
    (vendor : List VendorItem) (ps : List ShopifyProduct) (it : VendorItem)
    (ref : ProductRef)
    (hmem : it ∈ vendor)
    (hcode : pyStrip it.product_code ≠ "")
    (hmatch : groupMatch ps (vendorGroup vendor (pyStrip it.product_code)) = some ref) :
    ((∃ e ∈ (compare_vendor_products vendor ps).new_variants, e.item = it) ↔
        ((it.sku = "" ∨ knownSku ps it.sku = false) ∧
          (pyStrip it.ean = "" ∨ knownBarcode ps (pyStrip it.ean) = false)))
    ∧ ∀ e ∈ (compare_vendor_products vendor ps).new_variants, e.item = it →
        e.shopify_product_id = ref.id ∧ e.shopify_product_title = ref.title := by
  constructor
  · constructor
    · rintro ⟨e, henv, hitem⟩
      rcases mem_new_variants.1 henv with ⟨-, -, ref', hm', hsku, hean, -, -⟩
      rw [hitem] at hsku hean
      exact ⟨skuExists_eq_false_iff.1 hsku, eanExists_eq_false_iff.1 hean⟩
    · rintro ⟨hsku, hean⟩
      refine ⟨⟨it, ref.id, ref.title⟩, ?_, rfl⟩
      exact mem_new_variants.2 ⟨hmem, hcode, ref, hmatch,
        skuExists_eq_false_iff.2 hsku, eanExists_eq_false_iff.2 hean, rfl, rfl⟩
  · rintro e henv hitem
    rcases mem_new_variants.1 henv with ⟨-, -, ref', hm', -, -, hid, htitle⟩
    rw [hitem] at hm'
    rw [hm'] at hmatch
    cases hmatch
    exact ⟨hid, htitle⟩

/-- Witness for C2 on a concrete catalog: the sibling row `ALP-01-A`
matches by SKU, the probed row `ALP-01-B` has unknown SKU and EAN and is
emitted with the matched product's id and title. -/
theorem new_variant_iff_sku_and_ean_absent_witness :
    ((∃ e ∈ (compare_vendor_products
        [mkItem "ALP-01-A" "" "ALP-01", mkItem "ALP-01-B" "" "ALP-01"]
        [⟨"gid://shopify/Product/1", "Alpha Tee", [⟨"ALP-01-A", "5701234567890"⟩]⟩]).new_variants,
        e.item = mkItem "ALP-01-B" "" "ALP-01") ↔
      (((mkItem "ALP-01-B" "" "ALP-01").sku = "" ∨
          knownSku [⟨"gid://shopify/Product/1", "Alpha Tee", [⟨"ALP-01-A", "5701234567890"⟩]⟩]
            (mkItem "ALP-01-B" "" "ALP-01").sku = false) ∧
        (pyStrip (mkItem "ALP-01-B" "" "ALP-01").ean = "" ∨
          knownBarcode [⟨"gid://shopify/Product/1", "Alpha Tee", [⟨"ALP-01-A", "5701234567890"⟩]⟩]
            (pyStrip (mkItem "ALP-01-B" "" "ALP-01").ean) = false)))
    ∧ ∀ e ∈ (compare_vendor_products
        [mkItem "ALP-01-A" "" "ALP-01", mkItem "ALP-01-B" "" "ALP-01"]
        [⟨"gid://shopify/Product/1", "Alpha Tee", [⟨"ALP-01-A", "5701234567890"⟩]⟩]).new_variants,
        e.item = mkItem "ALP-01-B" "" "ALP-01" →
          e.shopify_product_id = "gid://shopify/Product/1" ∧
          e.shopify_product_title = "Alpha Tee" :=
  new_variant_iff_sku_and_ean_absent _ _ _ ⟨"gid://shopify/Product/1", "Alpha Tee"⟩
    (by decide) (by decide) (by decide)

/-- Claim C3: the "new product" classification is atomic per product-code
group — two rows with the same non-empty stripped code are either both in
`new_products` or both absent — and a group none of whose rows matches a
known SKU or barcode lands entirely in `new_products`. -/
theorem new_products_group_atomic
    (vendor : List VendorItem) (ps : List ShopifyProduct) (it₁ it₂ : VendorItem)
    (h1 : it₁ ∈ vendor) (h2 : it₂ ∈ vendor)
    (hsame : pyStrip it₁.product_code = pyStrip it₂.product_code)
    (hne : pyStrip it₁.product_code ≠ "") :
    ((it₁ ∈ (compare_vendor_products vendor ps).new_products ↔
        it₂ ∈ (compare_vendor_products vendor ps).new_products)
      ∧ ((∀ row ∈ vendorGroup vendor (pyStrip it₁.product_code),
            rowMatch ps row = none) →
          it₁ ∈ (compare_vendor_products vendor ps).new_products ∧
          it₂ ∈ (compare_vendor_products vendor ps).new_products)) := by
  constructor
  · rw [mem_new_products, mem_new_products, ← hsame]
    constructor
    · rintro ⟨-, -, hnone⟩
      exact ⟨h2, hne, hnone⟩
    · rintro ⟨-, -, hnone⟩
      exact ⟨h1, hne, hnone⟩
  · intro hall
    have hnone : groupMatch ps (vendorGroup vendor (pyStrip it₁.product_code)) = none := by
      rw [groupMatch, List.findSome?_eq_none_iff]
      exact hall
    refine ⟨mem_new_products.2 ⟨h1, hne, hnone⟩, mem_new_products.2 ⟨h2, ?_, ?_⟩⟩
    · rw [← hsame]; exact hne
    · rw [← hsame]; exact hnone

/-- Witness for C3: two sibling rows of code `TS-CTT-CO`, neither
matching the (unrelated) catalog, are both classified `new_products`. -/
theorem new_products_group_atomic_witness :
    ((mkItem "TS-CTT-CO-01" "1" "TS-CTT-CO" ∈
        (compare_vendor_products
          [mkItem "TS-CTT-CO-01" "1" "TS-CTT-CO", mkItem "TS-CTT-CO-02" "2" "TS-CTT-CO"]
          [⟨"gid://shopify/Product/9", "Other", [⟨"OTH-1", "3"⟩]⟩]).new_products ↔
      mkItem "TS-CTT-CO-02" "2" "TS-CTT-CO" ∈
        (compare_vendor_products
          [mkItem "TS-CTT-CO-01" "1" "TS-CTT-CO", mkItem "TS-CTT-CO-02" "2" "TS-CTT-CO"]
          [⟨"gid://shopify/Product/9", "Other", [⟨"OTH-1", "3"⟩]⟩]).new_products)
    ∧ ((∀ row ∈ vendorGroup
          [mkItem "TS-CTT-CO-01" "1" "TS-CTT-CO", mkItem "TS-CTT-CO-02" "2" "TS-CTT-CO"]
          (pyStrip (mkItem "TS-CTT-CO-01" "1" "TS-CTT-CO").product_code),
          rowMatch [⟨"gid://shopify/Product/9", "Other", [⟨"OTH-1", "3"⟩]⟩] row = none) →
        mkItem "TS-CTT-CO-01" "1" "TS-CTT-CO" ∈
          (compare_vendor_products
            [mkItem "TS-CTT-CO-01" "1" "TS-CTT-CO", mkItem "TS-CTT-CO-02" "2" "TS-CTT-CO"]
            [⟨"gid://shopify/Product/9", "Other", [⟨"OTH-1", "3"⟩]⟩]).new_products ∧
        mkItem "TS-CTT-CO-02" "2" "TS-CTT-CO" ∈
          (compare_vendor_products
            [mkItem "TS-CTT-CO-01" "1" "TS-CTT-CO", mkItem "TS-CTT-CO-02" "2" "TS-CTT-CO"]
            [⟨"gid://shopify/Product/9", "Other", [⟨"OTH-1", "3"⟩]⟩]).new_products)) :=
  new_products_group_atomic _ _ _ _ (by decide) (by decide) (by decide) (by decide)

/-- Claim C10: a vendor row whose product code strips to the empty string
is silently dropped by the grouping step and therefore appears in neither
`new_products` nor `new_variants`, whatever the catalog. -/
theorem empty_product_code_excluded
    (vendor : List VendorItem) (ps : List ShopifyProduct) (it : VendorItem)
    (hmem : it ∈ vendor)
    (hcode : pyStrip it.product_code = "") :
    it ∉ (compare_vendor_products vendor ps).new_products ∧
      ∀ e ∈ (compare_vendor_products vendor ps).new_variants, e.item ≠ it := by
  constructor
  · intro hnp
    rcases mem_new_products.1 hnp with ⟨-, hne, -⟩
    exact hne hcode
  · rintro e henv rfl
    rcases mem_new_variants.1 henv with ⟨-, hne, -⟩
    exact hne hcode

/-- Witness for C10: a row with whitespace-only product code is excluded
even though its SKU would otherwise classify it. -/
theorem empty_product_code_excluded_witness :
    (mkItem "ALP-01-B" "77" "  ") ∉
      (compare_vendor_products [mkItem "ALP-01-B" "77" "  "]
        [⟨"gid://shopify/Product/1", "Alpha Tee", [⟨"ALP-01-A", "5701234567890"⟩]⟩]).new_products ∧
    ∀ e ∈ (compare_vendor_products [mkItem "ALP-01-B" "77" "  "]
        [⟨"gid://shopify/Product/1", "Alpha Tee", [⟨"ALP-01-A", "5701234567890"⟩]⟩]).new_variants,
      e.item ≠ mkItem "ALP-01-B" "77" "  " :=
  empty_product_code_excluded _ _ _ (by decide) (by decide)

theorem normalizeSize_of_not_form {s : String}
    (hws : ∀ c ∈ s.data, pyIsSpace c = false)
    (hform : xRunFormCI s.data = false) :
    normalizeSize s = s := by
  have hnl : ¬s.data.getLast? = some '\n' := by
    intro h
    have hmem : '\n' ∈ s.data := by
      rcases List.mem_getLast?_eq_getLast (l := s.data) (x := '\n') h with ⟨hne, heq⟩
      rw [heq]
      exact List.getLast_mem hne
    have := hws '\n' hmem
    simp [pyIsSpace] at this
  have hcond := of_decide_eq_false (by rw [xRunFormCI] at hform; exact hform)
  simp only [normalizeSize]
  rw [if_neg hnl, if_neg hcond]

theorem normalizeSize_of_form {s : String}
    (hws : ∀ c ∈ s.data, pyIsSpace c = false)
    (hform : xRunFormCI s.data = true) :
    normalizeSize s = toString (s.data.takeWhile isXChar).length ++ "X" ++
      (if s.data.drop (s.data.takeWhile isXChar).length = ['S'] ∨
          s.data.drop (s.data.takeWhile isXChar).length = ['s'] then "S" else "L") := by
  have hnl : ¬s.data.getLast? = some '\n' := by
    intro h
    have hmem : '\n' ∈ s.data := by
      rcases List.mem_getLast?_eq_getLast (l := s.data) (x := '\n') h with ⟨hne, heq⟩
      rw [heq]
      exact List.getLast_mem hne
    have := hws '\n' hmem
    simp [pyIsSpace] at this
  have hcond := of_decide_eq_true (by rw [xRunFormCI] at hform; exact hform)
  simp only [normalizeSize]
  rw [if_neg hnl, if_pos hcond]

theorem sizeOfRawField_plain {s : String}
    (hslash : s.data.contains '/' = false)
    (hws : ∀ c ∈ s.data, pyIsSpace c = false) :
    sizeOfRawField s = normalizeSize s := by
  simp only [sizeOfRawField, pyStrip_of_no_space hws, hslash]
  simp

theorem dropWhile_space_append_slash (pre rest : List Char) :
    (pre ++ '/' :: rest).dropWhile pyIsSpace =
      pre.dropWhile pyIsSpace ++ '/' :: rest := by
  rw [List.dropWhile_append]
  by_cases h : (pre.dropWhile pyIsSpace).isEmpty = true
  · rw [if_pos h, List.dropWhile_cons, if_neg (by decide)]
    rw [List.isEmpty_iff] at h
    rw [h, List.nil_append]
  · rw [if_neg h]

theorem pyStripChars_append_slash (pre rest : List Char) :
    pyStripChars (pre ++ '/' :: rest) =
      pre.dropWhile pyIsSpace ++ '/' :: (rest.reverse.dropWhile pyIsSpace).reverse := by
  unfold pyStripChars
  rw [dropWhile_space_append_slash, List.reverse_append, List.reverse_cons,
    List.append_assoc, List.singleton_append, dropWhile_space_append_slash,
    List.reverse_append, List.reverse_cons, List.reverse_reverse,
    List.append_assoc, List.singleton_append]

theorem takeWhile_ne_slash (A C : List Char) (h : '/' ∉ A) :
    (A ++ '/' :: C).takeWhile (· ≠ '/') = A := by
  induction A with
  | nil => simp
  | cons a as ih =>
    have ha : a ≠ '/' := fun hq => h (hq ▸ List.mem_cons_self a as)
    simp only [List.cons_append, List.takeWhile_cons, ha]
    rw [ih (fun hm => h (List.mem_cons_of_mem a hm))]
    simp [ha]

theorem sizeOfRawField_slash (pre rest : List Char) (hpre : '/' ∉ pre) :
    sizeOfRawField ⟨pre ++ '/' :: rest⟩ = normalizeSize (pyStrip ⟨pre⟩) := by
  have hstrip : pyStrip ⟨pre ++ '/' :: rest⟩ =
      ⟨pre.dropWhile pyIsSpace ++ '/' :: (rest.reverse.dropWhile pyIsSpace).reverse⟩ :=
    congrArg String.mk (pyStripChars_append_slash pre rest)
  have hA : '/' ∉ pre.dropWhile pyIsSpace := fun hm =>
    hpre ((List.dropWhile_sublist pyIsSpace).mem hm)
  simp only [sizeOfRawField, hstrip]
  rw [if_pos (by simp [List.contains])]
  rw [takeWhile_ne_slash _ _ hA]
  congr 1
  show (⟨pyStripChars (pre.dropWhile pyIsSpace)⟩ : String) = ⟨pyStripChars pre⟩
  unfold pyStripChars
  rw [List.dropWhile_idempotent]

/-- Claim C4 counterexample: the claim's "any other size string is left
unchanged" clause fails, because the code's regex is case-insensitive:
`"xxl"` contains no literal `X` run yet the code rewrites it to `"2XL"`,
while the literal reading of the spec sentence leaves it unchanged. -/
theorem size_normalization_counterexample :
    sizeOfRawField "xxl" = "2XL" ∧ specSizeLiteral "xxl" = "xxl" ∧
      sizeOfRawField "xxl" ≠ specSizeLiteral "xxl" := by decide

/-- Claim C4 (amended): the four cited equalities hold, and the general
rule holds once amended for what the counterexample forces: a
slash-suffixed size keeps the whitespace-trimmed text before the first
`/` (then normalizes it); the X-run match is case-insensitive (2+
`X`/`x` followed by `S`/`L` in either case collapse, upper-cased); any
other whitespace-free, slash-free size string is left unchanged. -/
theorem size_normalization_amended :
    sizeOfRawField "XXXL" = "3XL" ∧ sizeOfRawField "XXL" = "2XL" ∧
    sizeOfRawField "XL/Regular" = "XL" ∧ sizeOfRawField "M" = "M" ∧
    (∀ s : String, s.data.contains '/' = false →
      (∀ c ∈ s.data, pyIsSpace c = false) → xRunFormCI s.data = false →
      sizeOfRawField s = s) ∧
    (∀ s : String, s.data.contains '/' = false →
      (∀ c ∈ s.data, pyIsSpace c = false) → xRunFormCI s.data = true →
      sizeOfRawField s = toString (s.data.takeWhile isXChar).length ++ "X" ++
        (if s.data.drop (s.data.takeWhile isXChar).length = ['S'] ∨
            s.data.drop (s.data.takeWhile isXChar).length = ['s'] then "S" else "L")) ∧
    (∀ pre rest : List Char, '/' ∉ pre →
      sizeOfRawField ⟨pre ++ '/' :: rest⟩ = normalizeSize (pyStrip ⟨pre⟩)) := by
  refine ⟨by decide, by decide, by decide, by decide, ?_, ?_, ?_⟩
  · intro s hslash hws hform
    rw [sizeOfRawField_plain hslash hws, normalizeSize_of_not_form hws hform]
  · intro s hslash hws hform
    rw [sizeOfRawField_plain hslash hws, normalizeSize_of_form hws hform]
  · intro pre rest hpre
    exact sizeOfRawField_slash pre rest hpre

/-- Witness for the amended C4: an ordinary size string passes through
unchanged, a lower-case X-run collapses. -/
theorem size_normalization_amended_witness :
    sizeOfRawField "Medium" = "Medium" :=
  size_normalization_amended.2.2.2.2.1 "Medium" (by decide) (by decide) (by decide)

theorem ceilDiv_le_iff {a b k : ℤ} (hb : 0 < b) : ceilDiv a b ≤ k ↔ a ≤ k * b := by
  rw [ceilDiv, neg_le, Int.le_ediv_iff_mul_le hb]
  constructor
  · intro h; nlinarith
  · intro h; nlinarith

theorem le_ceilDiv_mul {a b : ℤ} (hb : 0 < b) : a ≤ ceilDiv a b * b :=
  (ceilDiv_le_iff hb).1 (le_refl _)

theorem isLeastMultipleGE_ceilDiv {g a b : ℤ} (hg : 0 < g) (hb : 0 < b) :
    IsLeastMultipleGE g a b (ceilDiv a (g * b) * g) := by
  refine ⟨⟨ceilDiv a (g * b), mul_comm _ _⟩, ?_, ?_⟩
  · have := le_ceilDiv_mul (a := a) (mul_pos hg hb)
    calc a ≤ ceilDiv a (g * b) * (g * b) := this
    _ = ceilDiv a (g * b) * g * b := by ring
  · rintro m ⟨k, rfl⟩ hle
    have hk : ceilDiv a (g * b) ≤ k := by
      rw [ceilDiv_le_iff (mul_pos hg hb)]
      calc a ≤ g * k * b := hle
      _ = k * (g * b) := by ring
    calc ceilDiv a (g * b) * g ≤ k * g := by
          exact mul_le_mul_of_nonneg_right hk (le_of_lt hg)
    _ = g * k := by ring

/-- Claim C5: the EUR→DKK retail conversion multiplies by 7.5, rounds
the result up to the nearest 10 when at most 100, nearest 50 when at
most 800, else nearest 100 (each "round up to nearest g" meaning the
least multiple of `g` at least the amount), subtracts 1 and renders two
decimals; in particular 10.4 € → "79.00", 56 € → "449.00",
113.4 € → "899.00". -/
theorem eur_to_dkk_retail_spec :
    eurToDkkRetail 104 10 = "79.00" ∧ eurToDkkRetail 56 1 = "449.00" ∧
    eurToDkkRetail 1134 10 = "899.00" ∧
    ∀ (num : ℤ) (den : ℕ), 0 < den →
      ∃ r : ℤ, eurToDkkRetail num den = toString (r - 1) ++ ".00" ∧
        (num * 15 ≤ 100 * ((den : ℤ) * 2) →
          IsLeastMultipleGE 10 (num * 15) ((den : ℤ) * 2) r) ∧
        (¬num * 15 ≤ 100 * ((den : ℤ) * 2) → num * 15 ≤ 800 * ((den : ℤ) * 2) →
          IsLeastMultipleGE 50 (num * 15) ((den : ℤ) * 2) r) ∧
        (¬num * 15 ≤ 800 * ((den : ℤ) * 2) →
          IsLeastMultipleGE 100 (num * 15) ((den : ℤ) * 2) r) := by
  refine ⟨by decide, by decide, by decide, ?_⟩
  intro num den hden
  have hb : (0 : ℤ) < (den : ℤ) * 2 := by positivity
  by_cases h1 : num * 15 ≤ 100 * ((den : ℤ) * 2)
  · refine ⟨ceilDiv (num * 15) (10 * ((den : ℤ) * 2)) * 10, ?_, ?_, ?_, ?_⟩
    · simp only [eurToDkkRetail, if_pos h1]
    · intro _
      exact isLeastMultipleGE_ceilDiv (by norm_num) hb
    · intro hc _
      exact absurd h1 hc
    · intro hc
      exact absurd (le_trans h1 (by nlinarith)) hc
  · by_cases h2 : num * 15 ≤ 800 * ((den : ℤ) * 2)
    · refine ⟨ceilDiv (num * 15) (50 * ((den : ℤ) * 2)) * 50, ?_, ?_, ?_, ?_⟩
      · simp only [eurToDkkRetail, if_neg h1, if_pos h2]
      · intro hc
        exact absurd hc h1
      · intro _ _
        exact isLeastMultipleGE_ceilDiv (by norm_num) hb
      · intro hc
        exact absurd h2 hc
    · refine ⟨ceilDiv (num * 15) (100 * ((den : ℤ) * 2)) * 100, ?_, ?_, ?_, ?_⟩
      · simp only [eurToDkkRetail, if_neg h1, if_neg h2]
      · intro hc
        exact absurd hc h1
      · intro _ hc
        exact absurd hc h2
      · intro _
        exact isLeastMultipleGE_ceilDiv (by norm_num) hb

/-- Witness for C5: the general tier property instantiated at 10.4 €. -/
theorem eur_to_dkk_retail_spec_witness :
    ∃ r : ℤ, eurToDkkRetail 104 10 = toString (r - 1) ++ ".00" ∧
      (104 * 15 ≤ 100 * ((10 : ℤ) * 2) →
        IsLeastMultipleGE 10 (104 * 15) ((10 : ℤ) * 2) r) ∧
      (¬104 * 15 ≤ 100 * ((10 : ℤ) * 2) → 104 * 15 ≤ 800 * ((10 : ℤ) * 2) →
        IsLeastMultipleGE 50 (104 * 15) ((10 : ℤ) * 2) r) ∧
      (¬104 * 15 ≤ 800 * ((10 : ℤ) * 2) →
        IsLeastMultipleGE 100 (104 * 15) ((10 : ℤ) * 2) r) :=
  eur_to_dkk_retail_spec.2.2.2 104 10 (by decide)

/-- Claim C9: with bins `A1-01`, `A1-02`, `B2-01`, pattern `^A1` and
replacement `C3`, exactly the first two items are matched, with new bins
`C3-01` and `C3-02`; in general an item is in the match list iff its bin
is non-empty and matches the pattern, and it carries the substitution of
its current bin. -/
theorem batch_update_bins_regex_spec :
    (batch_update_bins_with_regex
        [("S1", ⟨1, "A1-01", "n1", "S1"⟩), ("S2", ⟨2, "A1-02", "n2", "S2"⟩),
          ("S3", ⟨3, "B2-01", "n3", "S3"⟩)] searchA1 subA1C3).1 =
      [⟨"S1", 1, "A1-01", "C3-01", "n1"⟩, ⟨"S2", 2, "A1-02", "C3-02", "n2"⟩] ∧
    ∀ (items : List (String × ShipmondoItem)) (search : String → Bool)
      (sub : String → String) (e : BinMatchEntry),
      e ∈ (batch_update_bins_with_regex items search sub).1 ↔
        ∃ p ∈ items, p.2.bin ≠ "" ∧ search p.2.bin = true ∧
          e = ⟨p.1, p.2.id, p.2.bin, sub p.2.bin, p.2.name⟩ := by
  refine ⟨by decide, ?_⟩
  intro items search sub e
  simp only [batch_update_bins_with_regex, List.mem_filterMap]
  constructor
  · rintro ⟨p, hp, hf⟩
    by_cases hc : p.2.bin ≠ "" ∧ search p.2.bin = true
    · rw [if_pos hc] at hf
      cases hf
      exact ⟨p, hp, hc.1, hc.2, rfl⟩
    · rw [if_neg hc] at hf
      cases hf
  · rintro ⟨p, hp, hbin, hsearch, rfl⟩
    exact ⟨p, hp, by rw [if_pos ⟨hbin, hsearch⟩]⟩

/-- Witness for C9's general clause at the first concrete item. -/
theorem batch_update_bins_regex_spec_witness :
    (⟨"S1", 1, "A1-01", "C3-01", "n1"⟩ : BinMatchEntry) ∈
      (batch_update_bins_with_regex [("S1", ⟨1, "A1-01", "n1", "S1"⟩)]
        searchA1 subA1C3).1 :=
  (batch_update_bins_regex_spec.2 _ _ _ _).2
    ⟨("S1", ⟨1, "A1-01", "n1", "S1"⟩), by decide, by decide, by decide, by decide⟩

/-- Claim C8 counterexample: a transport error on page 2 of the
Shipmondo item fetch does not propagate — the loop breaks and the items
collected from page 1 are returned as a partial result, contradicting
"aborts the entire fetch and propagates the error ... returning no
partial result ... regardless of which page". -/
theorem multi_page_fetch_abort_counterexample :
    fetch_all_shipmondo_items
        [CallResult.ok [⟨1, "A1-01", "item one", "SKU1"⟩],
          CallResult.exc "connection reset"] =
      CallResult.ok [("SKU1", ⟨1, "A1-01", "item one", "SKU1"⟩)] := by decide

theorem shipmondoFetchGo_ok_prefix (pre : List (List RawItem))
    (hne : ∀ its ∈ pre, its ≠ []) (e : String)
    (post : List (CallResult (List RawItem))) :
    ∀ (page : ℕ) (acc : List (String × ShipmondoItem)), 1 ≤ page → pre ≠ [] →
      shipmondoFetchGo (pre.map CallResult.ok ++ CallResult.exc e :: post) page acc =
        CallResult.ok (pre.foldl storePageItems acc) := by
  induction pre with
  | nil => intro _ _ _ h; exact absurd rfl h
  | cons its rest ih =>
    intro page acc hpage _
    have hits : its ≠ [] := hne its (by simp)
    simp only [List.map_cons, List.cons_append, shipmondoFetchGo, if_neg hits,
      List.foldl_cons]
    rcases rest with _ | ⟨its2, rest2⟩
    · simp only [List.map_nil, List.nil_append, shipmondoFetchGo, List.foldl_nil]
      rw [if_neg (by omega)]
    · exact ih (fun x hx => hne x (List.mem_cons_of_mem _ hx)) (page + 1)
        (storePageItems acc its) (by omega) (by simp)

/-- Claim C8 (amended): the Shopify catalog fetch propagates a transport
error occurring on any page, with no partial result; the Shipmondo item
fetch propagates an error only when it occurs on the first page — an
error on a later page ends the fetch and returns the items collected
from the pages already fetched. -/
theorem multi_page_fetch_error_amended :
    (∀ (pre : List (List ShopifyProduct)) (e : String)
       (post : List (CallResult (List ShopifyProduct × Bool)))
       (acc : List ShopifyProduct),
       shopifyFetchGo
           (pre.map (fun prods => CallResult.ok (prods, true)) ++
             CallResult.exc e :: post) acc =
         CallResult.exc e) ∧
    (∀ (e : String) (rest : List (CallResult (List RawItem))),
       fetch_all_shipmondo_items (CallResult.exc e :: rest) = CallResult.exc e) ∧
    (∀ pre : List (List RawItem), (∀ its ∈ pre, its ≠ []) → pre ≠ [] →
       ∀ (e : String) (post : List (CallResult (List RawItem))),
       fetch_all_shipmondo_items (pre.map CallResult.ok ++ CallResult.exc e :: post) =
         CallResult.ok (pre.foldl storePageItems [])) := by
  refine ⟨?_, ?_, ?_⟩
  · intro pre e post
    induction pre with
    | nil => intro acc; rfl
    | cons prods rest ih =>
      intro acc
      simp only [List.map_cons, List.cons_append, shopifyFetchGo, if_pos rfl]
      exact ih (acc ++ prods)
  · intro e rest
    rfl
  · intro pre hne hpre e post
    exact shipmondoFetchGo_ok_prefix pre hne e post 1 [] (le_refl 1) hpre

/-- Witness for the amended C8: one successful page followed by an
error returns exactly the page-1 items. -/
theorem multi_page_fetch_error_amended_witness :
    fetch_all_shipmondo_items
        (([[⟨1, "A1-01", "item one", "SKU1"⟩]].map CallResult.ok) ++
          CallResult.exc "boom" :: []) =
      CallResult.ok ([[⟨1, "A1-01", "item one", "SKU1"⟩]].foldl storePageItems []) :=
  multi_page_fetch_error_amended.2.2 [[⟨1, "A1-01", "item one", "SKU1"⟩]]
    (by decide) (by decide) "boom" []

/-- Claim C6 counterexample: the seed-variant update succeeds and puts
one variant into `all_created`, then the bulk-create mutation raises;
the call returns with a non-empty `created` list, refuting "returns a
result whose created list is empty and whose errors list contains
exactly one error string". -/
theorem add_variants_exception_counterexample :
    add_variants_to_shopify_product false true true false "Farve"
        ⟨CallResult.ok (),
          CallResult.ok ([⟨"gid://shopify/ProductVariant/1", "SKU1", "L"⟩], []),
          CallResult.exc "boom", [], []⟩ =
      ⟨[⟨"gid://shopify/ProductVariant/1", "SKU1", "L"⟩], ["boom"]⟩ := by decide

/-- Claim C6 (amended): the call returns rather than propagating, but
the result shape depends on which mutation raised.  An exception in the
option-value pre-creation loop returns an empty `created` list and
exactly one error.  An exception in the final bulk-create mutation
returns the `created` list accumulated by the seed update together with
the accumulated errors plus the exception's message.  An exception in
the seed-variant update does not end the call: its message joins the
error list and the bulk create still runs. -/
theorem add_variants_exception_amended
    (doOptionCreate hasUpdates hasCreates hasColorImages : Bool)
    (optName : String) (env : AddVariantsEnv) :
    (∀ m, doOptionCreate = true → env.optionValueCreate = CallResult.exc m →
      add_variants_to_shopify_product doOptionCreate hasUpdates hasCreates
          hasColorImages optName env =
        ⟨[], ["Failed to create option values for " ++ optName ++ ": " ++ m]⟩) ∧
    (∀ m, doOptionCreate = false → hasCreates = true →
      env.bulkCreate = CallResult.exc m →
      add_variants_to_shopify_product doOptionCreate hasUpdates hasCreates
          hasColorImages optName env =
        ⟨(seedPhase hasUpdates env.seedUpdate).1,
          (seedPhase hasUpdates env.seedUpdate).2 ++ [m]⟩) ∧
    (∀ m cvs uerrs, doOptionCreate = false → hasUpdates = true →
      env.seedUpdate = CallResult.exc m → hasCreates = true →
      env.bulkCreate = CallResult.ok (cvs, uerrs) →
      (add_variants_to_shopify_product doOptionCreate hasUpdates hasCreates
          hasColorImages optName env).created = cvs ∧
      ("Failed to update seed variant(s): " ++ m) ∈
        (add_variants_to_shopify_product doOptionCreate hasUpdates hasCreates
          hasColorImages optName env).errors) := by
  obtain ⟨ovc, su, bc, aie, rie⟩ := env
  refine ⟨?_, ?_, ?_⟩
  · rintro m rfl rfl
    rfl
  · rintro m rfl rfl rfl
    cases ovc <;> rfl
  · rintro m cvs uerrs rfl rfl rfl rfl rfl
    cases ovc <;>
      simp [add_variants_to_shopify_product, addVariantsAfterOptions, seedPhase]

/-- Witness for the amended C6: an option-value creation failure
returns no created variants and a single error string. -/
theorem add_variants_exception_amended_witness :
    add_variants_to_shopify_product true false false false "Farve"
        ⟨CallResult.exc "boom", CallResult.ok ([], []), CallResult.ok ([], []),
          [], []⟩ =
      ⟨[], ["Failed to create option values for Farve: boom"]⟩ :=
  ((add_variants_exception_amended true false false false "Farve"
      ⟨CallResult.exc "boom", CallResult.ok ([], []), CallResult.ok ([], []),
        [], []⟩).1 "boom" rfl rfl).trans (by decide)

/-- Claim C7 counterexample: `parse_vendor_csv` itself does not tolerate
a byte-order mark — a leading U+FEFF sticks to the first header, the
`SKU` column is no longer found, and every row is skipped, whereas the
same text without the mark parses to one row. -/
theorem parse_vendor_csv_bom_counterexample :
    parse_vendor_csv ("\uFEFF" ++ "SKU\nA-B-C-D") = [] ∧
    (parse_vendor_csv "SKU\nA-B-C-D").length = 1 ∧
    parse_vendor_csv ("\uFEFF" ++ "SKU\nA-B-C-D") ≠
      parse_vendor_csv "SKU\nA-B-C-D" := by decide

/-- Claim C7 (amended): BOM tolerance is provided by the upload route,
which decodes the uploaded bytes with `utf-8-sig` before calling the
parser; that decode removes one leading U+FEFF, so the route-level
composition is BOM-invariant: for every CSV text, parsing the decoded
BOM-prefixed text yields exactly the rows of the text itself. -/
theorem parse_vendor_csv_bom_amended (s : String) :
    parse_vendor_csv (stripBom ("\uFEFF" ++ s)) = parse_vendor_csv s := by
  have hdata : ("\uFEFF" ++ s).data = '\uFEFF' :: s.data := by
    cases s with
    | mk data => rfl
  have hstrip : stripBom ("\uFEFF" ++ s) = s := by
    rw [stripBom]
    rw [hdata]
    cases s with
    | mk data => rfl
  rw [hstrip]

end ShopifyTools
